import Mathlib

/-!
# Verification of the gdmix avro model-export pipeline (`gdmix/util/io_utils.py`)

Shallow embedding of the export pipeline: the feature-catalog loader
(`read_feature_list`), the record builder (`gen_one_avro_model`), the blockwise
writer (`try_write_avro_blocks`), the two export orchestrators
(`export_scipy_lr_model_to_avro`, `export_lr_model_to_avro`) and the reader
(`load_scipy_models_from_avro`).

Modelling choices:
* Coefficient values are rationals (the Python code only copies float values,
  it never computes with them, so `ℚ` mirrors the data flow exactly).
* Python exceptions become `Except PyError` / explicit error fields; the
  distinct exception classes that can occur are constructors of `PyError`.
* A written avro file is modelled by its readable content: the list of records
  appended so far, in order.
* `fastavro.writer` success/failure is an explicit boolean parameter of the
  blockwise writer (`writeOk`), with the raised cause a string.
-/

set_option autoImplicit false

namespace GdmixIoUtils

/-- The Python exception classes reachable in this module. -/
inductive PyError where
  | indexError
  | validationError
  | assertionError
  | attributeError
  | zeroDivisionError
deriving DecidableEq, Repr

/-- One `{name, term, value}` entry of a model record's `means`. -/
structure Coefficient where
  name : String
  term : String
  value : ℚ
deriving DecidableEq, Repr

/-- One photon-ml avro model record, as built by `gen_one_avro_model`. -/
structure ModelRecord where
  modelId : String
  modelClass : String
  lossFunction : String
  means : List Coefficient
deriving DecidableEq, Repr

deriving instance DecidableEq for Except

/-- Python `str.strip()`: drop whitespace from both ends. -/
def pyStrip (s : String) : String :=
  String.mk
    (((s.toList.dropWhile Char.isWhitespace).reverse.dropWhile
      Char.isWhitespace).reverse)

/-- Python `str.split(',')` on the character list: split at every comma,
keeping empty pieces; the result is never empty. -/
def splitCommaAux : List Char → List Char → List (List Char)
  | [], acc => [acc.reverse]
  | c :: cs, acc =>
    if c = ',' then acc.reverse :: splitCommaAux cs []
    else splitCommaAux cs (c :: acc)

/-- Python `s.split(',')`. -/
def splitComma (s : String) : List String :=
  (splitCommaAux s.toList []).map fun cs => String.mk cs

/-- Body of the `read_feature_list` loop for one line:
`fields = line.strip().split(','); if len(fields) == 1: fields.append('')`. -/
def splitFields (line : String) : List String :=
  let fields := splitComma (pyStrip line)
  if fields.length = 1 then fields ++ [""] else fields

/-- `read_feature_list`: one entry per line of the feature file, in order. -/
def read_feature_list (lines : List String) : List (List String) :=
  lines.map splitFields

/-- `feature_list[w_i]` followed by `feat[0]`, `feat[1]`: any missing index
raises `IndexError`. -/
def lookupFeat (feature_list : List (List String)) (i : Nat) :
    Except PyError (String × String) :=
  match feature_list[i]? with
  | none => .error .indexError
  | some feat =>
    match feat[0]?, feat[1]? with
    | some n, some t => .ok (n, t)
    | _, _ => .error .indexError

/-- The `for w_i, w_v in zip(...)` loop of `gen_one_avro_model`, building the
non-intercept part of `means`. -/
def genMeans (feature_list : List (List String)) :
    List (Nat × ℚ) → Except PyError (List Coefficient)
  | [] => .ok []
  | (w_i, w_v) :: rest => do
    let nt ← lookupFeat feature_list w_i
    let ms ← genMeans feature_list rest
    .ok ({ name := nt.1, term := nt.2, value := w_v } :: ms)

/-- `gen_one_avro_model`: intercept coefficient first, then one coefficient per
zipped (index, value) pair, names and terms taken from the feature list. -/
def gen_one_avro_model (model_id model_class : String) (weight_indices : List Nat)
    (weight_values : List ℚ) (bias : ℚ) (feature_list : List (List String)) :
    Except PyError ModelRecord := do
  let ms ← genMeans feature_list (weight_indices.zip weight_values)
  .ok { modelId := model_id, modelClass := model_class, lossFunction := "",
        means := { name := "(INTERCEPT)", term := "", value := bias } :: ms }

/-- Observable result of one `try_write_avro_blocks` call: the file content,
the caller's buffer afterwards, what was logged, and the raised exception. -/
structure WriterResult where
  file : List ModelRecord
  buffer : List ModelRecord
  logged : List String
  error : Option String
deriving DecidableEq, Repr

/-- `try_write_avro_blocks`: on success the records are appended to the file
and the caller's buffer is cleared in place (`records[:] = []`) and `suc_msg`
is logged; on failure the exception `cause` is logged together with `err_msg`
(when given) and re-raised unchanged, the buffer untouched. -/
def try_write_avro_blocks (writeOk : Bool) (cause : String)
    (f records : List ModelRecord) (suc_msg err_msg : Option String) :
    WriterResult :=
  if writeOk then
    { file := f ++ records, buffer := [],
      logged := match suc_msg with | some m => [m] | none => [],
      error := none }
  else
    { file := f, buffer := records,
      logged := match err_msg with | some m => [cause, m] | none => [],
      error := some cause }

/-- State carried through one export run: the readable file content, the
in-memory record buffer (`model_avro_records`), and how many block writes
(flushes) have happened. -/
structure ExportState where
  file : List ModelRecord
  buffer : List ModelRecord
  flushes : Nat
deriving DecidableEq, Repr

/-- The `err_msg` string built before each `try_write_avro_blocks` call. -/
def errMsgFor (mid path : String) : String :=
  "An error occurred while writing model id " ++ mid ++ " to path " ++ path

/-- One successful `try_write_avro_blocks` call issued by the orchestrator. -/
def doFlush (path mid : String) (st : ExportState) : ExportState :=
  let r := try_write_avro_blocks true "" st.file st.buffer none
      (some (errMsgFor mid path))
  { file := r.file, buffer := r.buffer, flushes := st.flushes + 1 }

/-- Python list indexing `xs[i]`: `IndexError` when out of range. -/
def getE {β : Type} (xs : List β) (i : Nat) : Except PyError β :=
  match xs[i]? with
  | some x => .ok x
  | none => .error .indexError

/-- The record built for entity `i` by `export_scipy_lr_model_to_avro`:
`gen_one_avro_model(str(model_ids[i]), model_class, list_of_weight_indices[i],
list_of_weight_values[i], biases[i], feature_list)`, with the arguments
evaluated left to right. -/
def buildModel (model_class : String) (feature_list : List (List String))
    (model_ids : List String) (lwi : List (List Nat)) (lwv : List (List ℚ))
    (biases : List ℚ) (i : Nat) : Except PyError ModelRecord := do
  let mid ← getE model_ids i
  let wi ← getE lwi i
  let wv ← getE lwv i
  let b ← getE biases i
  gen_one_avro_model mid model_class wi wv b feature_list

/-- One iteration of the `for i in range(1, num_models)` loop: build the
record, append it to the buffer, and flush when `i % model_log_interval == 0`
(`i % 0` raises `ZeroDivisionError` in Python). -/
def scipyStep (model_class path : String) (feature_list : List (List String))
    (model_ids : List String) (lwi : List (List Nat)) (lwv : List (List ℚ))
    (biases : List ℚ) (interval : Nat) (st : ExportState) (i : Nat) :
    Except PyError ExportState := do
  let r ← buildModel model_class feature_list model_ids lwi lwv biases i
  let st' : ExportState := { st with buffer := st.buffer ++ [r] }
  if interval = 0 then .error .zeroDivisionError
  else if i % interval = 0 then
    .ok (doFlush path (model_ids.getD i "") st')
  else .ok st'

/-- `export_scipy_lr_model_to_avro`: read the feature list, build and flush the
first record (the `'wb'` block), then stream entities `1 .. num_models - 1`
with a periodic flush, and a final flush when the buffer is nonempty. -/
def export_scipy_lr_model_to_avro (model_ids : List String)
    (lwi : List (List Nat)) (lwv : List (List ℚ)) (biases : List ℚ)
    (feature_lines : List String) (path : String) (interval : Nat)
    (model_class : String) : Except PyError ExportState := do
  let r0 ← buildModel model_class (read_feature_list feature_lines)
      model_ids lwi lwv biases 0
  let st ← (List.range' 1 (biases.length - 1)).foldlM
      (scipyStep model_class path (read_feature_list feature_lines)
        model_ids lwi lwv biases interval)
      (doFlush path (model_ids.getD 0 "") ⟨[], [r0], 0⟩)
  if st.buffer.isEmpty then .ok st
  else .ok (doFlush path (model_ids.getLastD "") st)

/-- `get_one_model_weights` inside `load_scipy_models_from_avro`:
`bias = coeffs[0]` (IndexError on empty means), result `weights + [bias]`. -/
def get_one_model_weights (r : ModelRecord) : Except PyError (List ℚ) :=
  match r.means.map (fun c => c.value) with
  | [] => .error .indexError
  | bias :: weights => .ok (weights ++ [bias])

/-- `load_scipy_models_from_avro`: one coefficient vector per record read,
in file order. -/
def load_scipy_models_from_avro : List ModelRecord → Except PyError (List (List ℚ))
  | [] => .ok []
  | r :: rs => do
    let m ← get_one_model_weights r
    let ms ← load_scipy_models_from_avro rs
    .ok (m :: ms)

/-- I/O actions `export_lr_model_to_avro` can perform, in order. -/
inductive IOEvent where
  | openCheckpoint
  | getTensor (tname : String)
  | openOutput
  | writeBlock
deriving DecidableEq, Repr

/-- `export_lr_model_to_avro`: opens the checkpoint reader first
(`NewCheckpointReader(tf.train.latest_checkpoint(...))` — input I/O), then
asserts `len(weight_variable_list) == 1`, reads the two tensors, asserts the
shapes, and then hits `tf.io.gfile.Gfile` — a misspelling of `GFile` — so the
write phase always raises `AttributeError` before any output I/O.  `weights`
and `biasVec` stand for the tensors the checkpoint reader would return. -/
def export_lr_model_to_avro (weights : List (List ℚ)) (biasVec : List ℚ)
    (feature_lines : List String) (weight_variable_list : List String)
    (bias_name : String) (model_ids : List String) (output_file : String) :
    List IOEvent × Except PyError Unit :=
  let tr := [IOEvent.openCheckpoint]
  if weight_variable_list.length = 1 then
    let tr := tr ++ [IOEvent.getTensor (weight_variable_list.getD 0 ""),
                     IOEvent.getTensor bias_name]
    let feature_list := read_feature_list feature_lines
    let num_features := feature_list.length
    let num_models := weights.length
    if (weights.headD []).length = num_features then
      if num_models = model_ids.length then
        (tr, .error .attributeError)
      else (tr, .error .assertionError)
    else (tr, .error .assertionError)
  else (tr, .error .assertionError)

/-- Does `needle` occur at the start of `hay`? -/
def listStarts : List Char → List Char → Bool
  | [], _ => true
  | _ :: _, [] => false
  | a :: as, b :: bs => a = b && listStarts as bs

/-- Does `needle` occur anywhere inside `hay`? -/
def listSub (needle : List Char) : List Char → Bool
  | [] => needle.isEmpty
  | c :: cs => listStarts needle (c :: cs) || listSub needle cs

/-- Substring test, for stating what a raised error message mentions. -/
def strContains (needle hay : String) : Bool :=
  listSub needle.toList hay.toList

/-- A concrete record used in counterexamples. -/
def sampleRecord : ModelRecord :=
  ⟨"1", "c", "", [⟨"(INTERCEPT)", "", 0⟩]⟩

/-- The coefficient `gen_one_avro_model` produces for a zipped pair, expressed
directly over the feature list (specification-side reformulation, compared
against the embedded builder in the theorems). -/
def coeffOf (feature_list : List (List String)) (p : Nat × ℚ) : Coefficient :=
  { name := (feature_list.getD p.1 []).getD 0 "",
    term := (feature_list.getD p.1 []).getD 1 "",
    value := p.2 }

/-- The record the orchestrator builds for entity `i`, expressed directly
over the inputs (specification-side reformulation). -/
def specRecord (model_class : String) (feature_list : List (List String))
    (model_ids : List String) (lwi : List (List Nat)) (lwv : List (List ℚ))
    (biases : List ℚ) (i : Nat) : ModelRecord :=
  { modelId := model_ids.getD i "", modelClass := model_class,
    lossFunction := "",
    means := { name := "(INTERCEPT)", term := "", value := biases.getD i 0 } ::
      ((lwi.getD i []).zip (lwv.getD i [])).map (coeffOf feature_list) }

/-- Pure reference form of the streaming loop, for reasoning: same state
transformation as the successful `scipyStep` iterations. -/
def refLoop (interval : Nat) (recOf : Nat → ModelRecord) :
    List Nat → ExportState → ExportState
  | [], st => st
  | j :: js, st =>
    if j % interval = 0 then
      refLoop interval recOf js
        ⟨st.file ++ (st.buffer ++ [recOf j]), [], st.flushes + 1⟩
    else
      refLoop interval recOf js ⟨st.file, st.buffer ++ [recOf j], st.flushes⟩

/-- Pure reference form of the whole successful export run. -/
def exportRef (interval : Nat) (recOf : Nat → ModelRecord) (n : Nat) :
    ExportState :=
  let st := refLoop interval recOf (List.range' 1 (n - 1)) ⟨[recOf 0], [], 1⟩
  if st.buffer.isEmpty then st
  else ⟨st.file ++ st.buffer, [], st.flushes + 1⟩

/-- Validity of an input to `export_scipy_lr_model_to_avro`: at least one
model, aligned lengths, per-entity aligned index/value vectors, and a feature
catalog covering every weight index. -/
def ValidInput (model_ids : List String) (lwi : List (List Nat))
    (lwv : List (List ℚ)) (biases : List ℚ) (lines : List String) : Prop :=
  1 ≤ biases.length ∧
  model_ids.length = biases.length ∧
  lwi.length = biases.length ∧
  lwv.length = biases.length ∧
  (∀ k, k < biases.length → (lwi.getD k []).length = (lwv.getD k []).length) ∧
  (∀ wi ∈ lwi, ∀ i ∈ wi, i < (read_feature_list lines).length)

instance (model_ids : List String) (lwi : List (List Nat)) (lwv : List (List ℚ))
    (biases : List ℚ) (lines : List String) :
    Decidable (ValidInput model_ids lwi lwv biases lines) := by
  unfold ValidInput
  infer_instance

/-! ## Lemmas about the feature-catalog loader -/

theorem splitCommaAux_ne_nil (cs : List Char) : ∀ acc, splitCommaAux cs acc ≠ [] := by
  induction cs with
  | nil => intro acc; simp [splitCommaAux]
  | cons c cs ih =>
    intro acc
    by_cases h : c = ','
    · simp [splitCommaAux, h]
    · simpa [splitCommaAux, h] using ih (c :: acc)

theorem two_le_length_splitFields (line : String) : 2 ≤ (splitFields line).length := by
  unfold splitFields splitComma
  set fs := (splitCommaAux (pyStrip line).toList []).map (fun cs => String.mk cs) with hfs
  have hne : fs ≠ [] := by
    simp only [hfs, ne_eq, List.map_eq_nil_iff]
    exact splitCommaAux_ne_nil _ []
  have hpos : 1 ≤ fs.length := List.length_pos_of_ne_nil hne
  by_cases h : fs.length = 1
  · simp [h]
  · simp only [h, if_false]
    omega

theorem two_le_of_mem_read_feature_list {lines : List String} {e : List String}
    (h : e ∈ read_feature_list lines) : 2 ≤ e.length := by
  unfold read_feature_list at h
  obtain ⟨line, _, rfl⟩ := List.mem_map.mp h
  exact two_le_length_splitFields line

theorem splitCommaAux_of_no_comma (cs : List Char) :
    ∀ acc, (∀ c ∈ cs, c ≠ ',') → splitCommaAux cs acc = [acc.reverse ++ cs] := by
  induction cs with
  | nil => intro acc _; simp [splitCommaAux]
  | cons c cs ih =>
    intro acc h
    have hc : c ≠ ',' := h c (by simp)
    rw [splitCommaAux, if_neg hc, ih (c :: acc) (fun d hd => h d (by simp [hd]))]
    simp

theorem splitCommaAux_append (l2 : List Char) (l1 : List Char) :
    ∀ acc, (∀ c ∈ l1, c ≠ ',') →
      splitCommaAux (l1 ++ ',' :: l2) acc = (acc.reverse ++ l1) :: splitCommaAux l2 [] := by
  induction l1 with
  | nil => intro acc _; simp [splitCommaAux]
  | cons c cs ih =>
    intro acc h
    have hc : c ≠ ',' := h c (by simp)
    rw [List.cons_append, splitCommaAux, if_neg hc,
      ih (c :: acc) (fun d hd => h d (by simp [hd]))]
    simp

theorem mk_toList (s : String) : String.mk s.toList = s := by
  cases s; rfl

theorem splitComma_of_no_comma (s : String) (h : ∀ c ∈ s.toList, c ≠ ',') :
    splitComma s = [s] := by
  unfold splitComma
  rw [splitCommaAux_of_no_comma s.toList [] h]
  simp [mk_toList]

theorem splitFields_single (name : String) (hs : pyStrip name = name)
    (h : ∀ c ∈ name.toList, c ≠ ',') : splitFields name = [name, ""] := by
  unfold splitFields
  rw [hs, splitComma_of_no_comma name h]
  rfl

theorem toList_append_comma (name term : String) :
    (name ++ "," ++ term).toList = name.toList ++ ',' :: term.toList := by
  show (name ++ "," ++ term).data = name.data ++ ',' :: term.data
  rw [String.data_append, String.data_append]
  simp

theorem splitFields_pair (name term : String)
    (hs : pyStrip (name ++ "," ++ term) = name ++ "," ++ term)
    (hn : ∀ c ∈ name.toList, c ≠ ',') (ht : ∀ c ∈ term.toList, c ≠ ',') :
    splitFields (name ++ "," ++ term) = [name, term] := by
  unfold splitFields splitComma
  rw [hs, toList_append_comma, splitCommaAux_append term.toList name.toList [] hn,
    splitCommaAux_of_no_comma term.toList [] ht]
  simp [mk_toList]

/-- C8: the Feature Catalog Loader returns one entry per input line, in line
order, with each entry's position equal to its line index; a line `name`
(comma-free, whitespace-trimmed) yields `(name, "")` and a line `name,term`
yields `(name, term)`; no reordering or de-duplication occurs, and loading the
same content twice yields identical sequences. -/
theorem gdmix_C8_read_feature_list :
    (∀ lines : List String, (read_feature_list lines).length = lines.length) ∧
    (∀ (lines : List String) (i : Nat), i < lines.length →
      (read_feature_list lines)[i]? = some (splitFields (lines.getD i ""))) ∧
    (∀ name : String, pyStrip name = name → (∀ c ∈ name.toList, c ≠ ',') →
      splitFields name = [name, ""]) ∧
    (∀ name term : String,
      pyStrip (name ++ "," ++ term) = name ++ "," ++ term →
      (∀ c ∈ name.toList, c ≠ ',') → (∀ c ∈ term.toList, c ≠ ',') →
      splitFields (name ++ "," ++ term) = [name, term]) ∧
    (∀ lines : List String, read_feature_list lines = read_feature_list lines) := by
  refine ⟨?_, ?_, splitFields_single, splitFields_pair, fun _ => rfl⟩
  · intro lines
    simp [read_feature_list]
  · intro lines i hi
    unfold read_feature_list
    rw [List.getElem?_map, List.getElem?_eq_getElem hi, List.getD_eq_getElem lines "" hi]
    rfl

/-- Witness for C8 at a concrete catalog with a duplicate feature name. -/
theorem gdmix_C8_witness :
    (read_feature_list ["f1", "f2,t1", "f1"]).length = 3 ∧
    (read_feature_list ["f1", "f2,t1", "f1"])[2]? = some (splitFields "f1") ∧
    splitFields "f1" = ["f1", ""] ∧
    splitFields ("f2" ++ "," ++ "t1") = ["f2", "t1"] :=
  ⟨gdmix_C8_read_feature_list.1 ["f1", "f2,t1", "f1"],
   gdmix_C8_read_feature_list.2.1 ["f1", "f2,t1", "f1"] 2 (by decide),
   gdmix_C8_read_feature_list.2.2.1 "f1" (by decide) (by decide),
   gdmix_C8_read_feature_list.2.2.2.1 "f2" "t1" (by decide) (by decide) (by decide)⟩

/-- C10: an empty or whitespace-only line does not make `read_feature_list`
fail: it yields, at that line's position, the entry with name `""` and term
`""`, occupying a weight-vector index like any other entry. -/
theorem gdmix_C10_blank_line (pre post : List String) (line : String)
    (h : pyStrip line = "") :
    (read_feature_list (pre ++ line :: post))[pre.length]? = some ["", ""] := by
  unfold read_feature_list
  rw [List.map_append, List.getElem?_append_right (by simp)]
  simp only [List.length_map, Nat.sub_self, List.map_cons, List.getElem?_cons_zero]
  unfold splitFields
  rw [h]
  rfl

/-- Witness for C10: a whitespace-only line between two features. -/
theorem gdmix_C10_witness :
    (read_feature_list (["f1"] ++ "  " :: ["f2"]))[(["f1"] : List String).length]? =
      some ["", ""] :=
  gdmix_C10_blank_line ["f1"] ["f2"] "  " (by decide)

/-! ## The blockwise writer (C5) -/

/-- C5 counterexample: when the write fails, the raised error is the original
cause unchanged — it does not carry the supplied description of what was being
written (the model-id range); the description only affects the log. -/
theorem gdmix_C5_counterexample :
    (try_write_avro_blocks false "disk full" [] [sampleRecord] none
        (some (errMsgFor "1" "out.avro"))).error = some "disk full" ∧
    strContains "model id" "disk full" = false ∧
    (try_write_avro_blocks false "disk full" [] [sampleRecord] none
        (some (errMsgFor "1" "out.avro"))).error =
      (try_write_avro_blocks false "disk full" [] [sampleRecord] none
        (some "a different description")).error ∧
    strContains "model id" (errMsgFor "1" "out.avro") = true := by
  refine ⟨rfl, by decide, rfl, by decide⟩

/-- C5 (amended): on success the caller-supplied buffer is cleared in place
and the records are appended to the file; on failure the original exception is
re-raised unchanged (the description of what was being written is only
logged, when provided) and the buffer is left untouched, still holding exactly
the records that were to be written. -/
theorem gdmix_C5_writer (cause : String) (f b : List ModelRecord)
    (suc_msg err_msg : Option String) :
    (try_write_avro_blocks true cause f b suc_msg err_msg).buffer = [] ∧
    (try_write_avro_blocks true cause f b suc_msg err_msg).file = f ++ b ∧
    (try_write_avro_blocks true cause f b suc_msg err_msg).error = none ∧
    (try_write_avro_blocks false cause f b suc_msg err_msg).buffer = b ∧
    (try_write_avro_blocks false cause f b suc_msg err_msg).file = f ∧
    (try_write_avro_blocks false cause f b suc_msg err_msg).error = some cause := by
  simp [try_write_avro_blocks]

/-! ## Degenerate inputs of the scipy exporter (C6) -/

/-- C6 counterexample: with an empty bias list the exporter raises
`IndexError`, not `ValidationError`. -/
theorem gdmix_C6_counterexample :
    export_scipy_lr_model_to_avro [] [] [] [] ["f1"] "out.avro" 1000 "c" =
      .error .indexError ∧
    PyError.indexError ≠ PyError.validationError := by
  exact ⟨by decide, by decide⟩

/-- C6 (amended): for `numModels == 0` (empty bias list) the exporter raises
`IndexError` while fetching the data of entity 0 inside the first-write block —
no validation is performed and no record is written. -/
theorem gdmix_C6_empty_biases (ids : List String) (lwi : List (List Nat))
    (lwv : List (List ℚ)) (lines : List String) (path : String) (interval : Nat)
    (mc : String) :
    export_scipy_lr_model_to_avro ids lwi lwv [] lines path interval mc =
      .error .indexError := by
  unfold export_scipy_lr_model_to_avro buildModel
  cases ids with
  | nil => rfl
  | cons a as =>
    cases lwi with
    | nil => simp [getE, Bind.bind, Except.bind]
    | cons w ws =>
      cases lwv with
      | nil => simp [getE, Bind.bind, Except.bind]
      | cons v vs => simp [getE, Bind.bind, Except.bind]

/-! ## The checkpoint-driven exporter (C7) -/

/-- C7 counterexample: a weight-variable list of length 2 makes
`export_lr_model_to_avro` fail with `AssertionError` (not `ValidationError`),
and the checkpoint reader has already been opened (input I/O) when the failure
happens. -/
theorem gdmix_C7_counterexample :
    export_lr_model_to_avro [] [] [] ["w1", "w2"] "bias" ["m"] "out.avro" =
      ([IOEvent.openCheckpoint], .error .assertionError) ∧
    ([IOEvent.openCheckpoint] : List IOEvent) ≠ [] ∧
    PyError.assertionError ≠ PyError.validationError := by
  exact ⟨by decide, by decide, by decide⟩

/-- C7 (amended): for every weight-variable list whose length is not 1,
`export_lr_model_to_avro` fails with `AssertionError` raised after the
checkpoint reader is opened but before any tensor read and before any output
I/O; no output is written. -/
theorem gdmix_C7_weight_list (weights : List (List ℚ)) (biasVec : List ℚ)
    (lines : List String) (wvl : List String) (bias_name : String)
    (ids : List String) (out : String) (h : wvl.length ≠ 1) :
    export_lr_model_to_avro weights biasVec lines wvl bias_name ids out =
      ([IOEvent.openCheckpoint], .error .assertionError) := by
  unfold export_lr_model_to_avro
  rw [if_neg h]

/-- Witness for C7 (amended) at a concrete two-element weight-variable list. -/
theorem gdmix_C7_witness :
    export_lr_model_to_avro [] [] [] ["w1", "w2"] "b" [] "o" =
      ([IOEvent.openCheckpoint], .error .assertionError) :=
  gdmix_C7_weight_list [] [] [] ["w1", "w2"] "b" [] "o" (by decide)

/-! ## Lemmas about the record builder -/

theorem lookupFeat_ok (fl : List (List String)) (i : Nat) (hi : i < fl.length)
    (hf : ∀ e ∈ fl, 2 ≤ e.length) :
    lookupFeat fl i = .ok ((fl.getD i []).getD 0 "", (fl.getD i []).getD 1 "") := by
  have hfeat : 2 ≤ fl[i].length := hf _ (List.getElem_mem hi)
  have h0 : 0 < fl[i].length := by omega
  have h1 : 1 < fl[i].length := by omega
  simp only [lookupFeat, List.getElem?_eq_getElem hi, List.getElem?_eq_getElem h0,
    List.getElem?_eq_getElem h1]
  rw [List.getD_eq_getElem fl [] hi, List.getD_eq_getElem _ "" h0,
    List.getD_eq_getElem _ "" h1]

theorem genMeans_ok (fl : List (List String)) (hf : ∀ e ∈ fl, 2 ≤ e.length) :
    ∀ pairs : List (Nat × ℚ), (∀ p ∈ pairs, p.1 < fl.length) →
      genMeans fl pairs = .ok (pairs.map (coeffOf fl)) := by
  intro pairs
  induction pairs with
  | nil => intro _; rfl
  | cons p ps ih =>
    intro h
    obtain ⟨i, v⟩ := p
    have hi : i < fl.length := h (i, v) (by simp)
    rw [genMeans, lookupFeat_ok fl i hi hf, ih (fun q hq => h q (by simp [hq]))]
    rfl

theorem gen_one_avro_model_ok (mid mc : String) (wi : List Nat) (wv : List ℚ)
    (b : ℚ) (fl : List (List String)) (hf : ∀ e ∈ fl, 2 ≤ e.length)
    (hcov : ∀ p ∈ wi.zip wv, p.1 < fl.length) :
    gen_one_avro_model mid mc wi wv b fl =
      .ok { modelId := mid, modelClass := mc, lossFunction := "",
            means := { name := "(INTERCEPT)", term := "", value := b } ::
              (wi.zip wv).map (coeffOf fl) } := by
  unfold gen_one_avro_model
  rw [genMeans_ok fl hf (wi.zip wv) hcov]
  rfl

/-- C1: the Record Builder returns a record whose `means[0]` is the intercept
coefficient `("(INTERCEPT)", "", bias)`, followed by exactly one coefficient
per zipped (index, value) pair in the caller-supplied order (not sorted by
index), each taking name and term from the catalog entry at that index; in
particular the three-line catalog scenario of the spec produces
`[("(INTERCEPT)","",0.5), ("f1","",1.1), ("f3","",3.3)]`. -/
theorem gdmix_C1_record_builder :
    (∀ (mid mc : String) (wi : List Nat) (wv : List ℚ) (b : ℚ)
        (lines : List String),
      wi.length = wv.length →
      (∀ i ∈ wi, i < (read_feature_list lines).length) →
      gen_one_avro_model mid mc wi wv b (read_feature_list lines) =
        .ok { modelId := mid, modelClass := mc, lossFunction := "",
              means := { name := "(INTERCEPT)", term := "", value := b } ::
                (wi.zip wv).map (coeffOf (read_feature_list lines)) }) ∧
    gen_one_avro_model "m" "c" [0, 2] [1.1, 3.3] 0.5
        (read_feature_list ["f1", "f2,t1", "f3"]) =
      .ok { modelId := "m", modelClass := "c", lossFunction := "",
            means := [⟨"(INTERCEPT)", "", 0.5⟩, ⟨"f1", "", 1.1⟩,
                      ⟨"f3", "", 3.3⟩] } := by
  constructor
  · intro mid mc wi wv b lines _ hcov
    apply gen_one_avro_model_ok
    · intro e he; exact two_le_of_mem_read_feature_list he
    · intro p hp
      exact hcov p.1 (List.of_mem_zip hp).1
  · rfl

/-- Witness for C1 at the spec's concrete scenario. -/
theorem gdmix_C1_witness :
    gen_one_avro_model "m" "c" [0, 2] [1.1, 3.3] 0.5
        (read_feature_list ["f1", "f2,t1", "f3"]) =
      .ok { modelId := "m", modelClass := "c", lossFunction := "",
            means := { name := "(INTERCEPT)", term := "", value := 0.5 } ::
              ([0, 2].zip [(1.1 : ℚ), 3.3]).map
                (coeffOf (read_feature_list ["f1", "f2,t1", "f3"])) } :=
  gdmix_C1_record_builder.1 "m" "c" [0, 2] [1.1, 3.3] 0.5 ["f1", "f2,t1", "f3"]
    (by decide) (by decide)

/-- C9: when `weight_indices` and `weight_values` have different lengths the
Record Builder raises no error: the record holds the intercept plus exactly
`min len(weight_indices) len(weight_values)` coefficients, the surplus of the
longer sequence silently ignored. -/
theorem gdmix_C9_length_mismatch (mid mc : String) (wi : List Nat)
    (wv : List ℚ) (b : ℚ) (lines : List String)
    (hcov : ∀ p ∈ wi.zip wv, p.1 < (read_feature_list lines).length) :
    ∃ r, gen_one_avro_model mid mc wi wv b (read_feature_list lines) = .ok r ∧
      r.means.length = 1 + min wi.length wv.length ∧
      r.means = { name := "(INTERCEPT)", term := "", value := b } ::
        (wi.zip wv).map (coeffOf (read_feature_list lines)) := by
  refine ⟨_, gen_one_avro_model_ok mid mc wi wv b _
    (fun e he => two_le_of_mem_read_feature_list he) hcov, ?_, rfl⟩
  simp [List.length_zip]
  omega

/-- Witness for C9: three indices, two values, the third index (out of any
pairing) ignored. -/
theorem gdmix_C9_witness :
    ∃ r, gen_one_avro_model "m" "c" [0, 2, 5] [1.5, 2.5] 4
        (read_feature_list ["a", "b", "c"]) = .ok r ∧
      r.means.length = 1 + min ([0, 2, 5] : List Nat).length
        ([(1.5 : ℚ), 2.5] : List ℚ).length ∧
      r.means = { name := "(INTERCEPT)", term := "", value := 4 } ::
        ([0, 2, 5].zip [(1.5 : ℚ), 2.5]).map
          (coeffOf (read_feature_list ["a", "b", "c"])) :=
  gdmix_C9_length_mismatch "m" "c" [0, 2, 5] [1.5, 2.5] 4 ["a", "b", "c"]
    (by decide)

/-! ## Lemmas about the scipy export orchestrator -/

theorem getE_ok {β : Type} (xs : List β) (i : Nat) (d : β) (h : i < xs.length) :
    getE xs i = .ok (xs.getD i d) := by
  simp only [getE, List.getElem?_eq_getElem h]
  rw [List.getD_eq_getElem xs d h]

theorem buildModel_ok (mc : String) (lines : List String) (ids : List String)
    (lwi : List (List Nat)) (lwv : List (List ℚ)) (biases : List ℚ) (i : Nat)
    (hids : i < ids.length) (hlwi : i < lwi.length) (hlwv : i < lwv.length)
    (hb : i < biases.length)
    (hcov : ∀ p ∈ (lwi.getD i []).zip (lwv.getD i []),
      p.1 < (read_feature_list lines).length) :
    buildModel mc (read_feature_list lines) ids lwi lwv biases i =
      .ok (specRecord mc (read_feature_list lines) ids lwi lwv biases i) := by
  unfold buildModel
  rw [getE_ok ids i "" hids, getE_ok lwi i [] hlwi, getE_ok lwv i [] hlwv,
    getE_ok biases i 0 hb]
  simp only [Bind.bind, Except.bind]
  rw [gen_one_avro_model_ok _ _ _ _ _ _
    (fun _ he => two_le_of_mem_read_feature_list he) hcov]
  rfl

theorem doFlush_eq (path mid : String) (st : ExportState) :
    doFlush path mid st = ⟨st.file ++ st.buffer, [], st.flushes + 1⟩ := by
  simp [doFlush, try_write_avro_blocks]

theorem foldlM_scipyStep (mc path : String) (lines : List String)
    (ids : List String) (lwi : List (List Nat)) (lwv : List (List ℚ))
    (biases : List ℚ) (interval : Nat) (hint : 1 ≤ interval) :
    ∀ (js : List Nat) (st : ExportState),
      (∀ j ∈ js, buildModel mc (read_feature_list lines) ids lwi lwv biases j =
        .ok (specRecord mc (read_feature_list lines) ids lwi lwv biases j)) →
      js.foldlM
          (scipyStep mc path (read_feature_list lines) ids lwi lwv biases interval)
          st =
        .ok (refLoop interval
          (specRecord mc (read_feature_list lines) ids lwi lwv biases) js st) := by
  intro js
  induction js with
  | nil => intro st _; rfl
  | cons j js ih =>
    intro st h
    rw [List.foldlM_cons]
    have hstep : scipyStep mc path (read_feature_list lines) ids lwi lwv biases
        interval st j =
        .ok (if j % interval = 0 then
          ⟨st.file ++ (st.buffer ++
            [specRecord mc (read_feature_list lines) ids lwi lwv biases j]), [],
            st.flushes + 1⟩
        else
          ⟨st.file, st.buffer ++
            [specRecord mc (read_feature_list lines) ids lwi lwv biases j],
            st.flushes⟩) := by
      unfold scipyStep
      rw [h j (by simp)]
      simp only [Bind.bind, Except.bind]
      rw [if_neg (by omega : ¬ interval = 0)]
      by_cases hj : j % interval = 0
      · rw [if_pos hj, if_pos hj, doFlush_eq]
      · rw [if_neg hj, if_neg hj]
    rw [hstep]
    simp only [Bind.bind, Except.bind]
    rw [refLoop]
    by_cases hj : j % interval = 0
    · rw [if_pos hj, if_pos hj]
      exact ih _ (fun k hk => h k (by simp [hk]))
    · rw [if_neg hj, if_neg hj]
      exact ih _ (fun k hk => h k (by simp [hk]))

theorem refLoop_concat (interval : Nat) (recOf : Nat → ModelRecord) :
    ∀ (js : List Nat) (st : ExportState),
      (refLoop interval recOf js st).file ++ (refLoop interval recOf js st).buffer =
        st.file ++ st.buffer ++ js.map recOf := by
  intro js
  induction js with
  | nil => intro st; simp [refLoop]
  | cons j js ih =>
    intro st
    rw [refLoop]
    by_cases hj : j % interval = 0
    · rw [if_pos hj, ih]
      simp
    · rw [if_neg hj, ih]
      simp

theorem exportRef_spec (interval : Nat) (recOf : Nat → ModelRecord) (m : Nat) :
    (exportRef interval recOf (m + 1)).file = (List.range (m + 1)).map recOf ∧
    (exportRef interval recOf (m + 1)).buffer = [] := by
  have hconcat := refLoop_concat interval recOf (List.range' 1 m) ⟨[recOf 0], [], 1⟩
  have hrange : (List.range (m + 1)).map recOf =
      [recOf 0] ++ [] ++ (List.range' 1 m).map recOf := by
    rw [List.range_eq_range', List.range'_succ]
    simp
  unfold exportRef
  simp only [Nat.add_sub_cancel]
  cases hb : (refLoop interval recOf (List.range' 1 m) ⟨[recOf 0], [], 1⟩).buffer.isEmpty
  · simp only [Bool.false_eq_true, if_false]
    refine ⟨?_, by trivial⟩
    rw [← hconcat] at hrange
    exact hrange.symm
  · simp only [if_true]
    have hempty := List.isEmpty_iff.mp hb
    rw [hempty, List.append_nil] at hconcat
    refine ⟨?_, hempty⟩
    rw [hconcat, ← hrange]

theorem export_scipy_ok (ids : List String) (lwi : List (List Nat))
    (lwv : List (List ℚ)) (biases : List ℚ) (lines : List String)
    (path : String) (interval : Nat) (mc : String)
    (hv : ValidInput ids lwi lwv biases lines) (hint : 1 ≤ interval) :
    export_scipy_lr_model_to_avro ids lwi lwv biases lines path interval mc =
      .ok (exportRef interval
        (specRecord mc (read_feature_list lines) ids lwi lwv biases)
        biases.length) := by
  obtain ⟨h1, hids, hlwi, hlwv, _, hcov⟩ := hv
  have hbuild : ∀ j, j < biases.length →
      buildModel mc (read_feature_list lines) ids lwi lwv biases j =
        .ok (specRecord mc (read_feature_list lines) ids lwi lwv biases j) := by
    intro j hj
    have hj' : j < lwi.length := by omega
    apply buildModel_ok mc lines ids lwi lwv biases j (by omega) hj' (by omega) hj
    intro p hp
    have hmem : lwi.getD j [] ∈ lwi := by
      rw [List.getD_eq_getElem lwi [] hj']
      exact List.getElem_mem hj'
    exact hcov _ hmem p.1 (List.of_mem_zip hp).1
  unfold export_scipy_lr_model_to_avro
  rw [hbuild 0 (by omega)]
  simp only [Bind.bind, Except.bind]
  rw [foldlM_scipyStep mc path lines ids lwi lwv biases interval hint
    (List.range' 1 (biases.length - 1)) _ ?mem]
  case mem =>
    intro j hj
    rw [List.mem_range'] at hj
    obtain ⟨i, hi, rfl⟩ := hj
    exact hbuild _ (by omega)
  rw [doFlush_eq]
  simp only [List.nil_append]
  unfold exportRef
  cases hb : (refLoop interval
      (specRecord mc (read_feature_list lines) ids lwi lwv biases)
      (List.range' 1 (biases.length - 1)) ⟨[specRecord mc
        (read_feature_list lines) ids lwi lwv biases 0], [], 1⟩).buffer.isEmpty
  · simp only [hb, Bool.false_eq_true, if_false]
    rw [doFlush_eq]
  · simp only [hb, if_true]

/-! ## Lemmas about the reader, and the claims C2, C3, C4 -/

theorem get_one_specRecord (mc : String) (fl : List (List String))
    (ids : List String) (lwi : List (List Nat)) (lwv : List (List ℚ))
    (biases : List ℚ) (i : Nat)
    (hlen : (lwi.getD i []).length = (lwv.getD i []).length) :
    get_one_model_weights (specRecord mc fl ids lwi lwv biases i) =
      .ok (lwv.getD i [] ++ [biases.getD i 0]) := by
  unfold get_one_model_weights specRecord
  simp only [List.map_cons]
  have hsnd : (((lwi.getD i []).zip (lwv.getD i [])).map (coeffOf fl)).map
      (fun c => c.value) = lwv.getD i [] := by
    rw [List.map_map]
    have hcomp : ((fun c : Coefficient => c.value) ∘ coeffOf fl) =
        (Prod.snd : Nat × ℚ → ℚ) := rfl
    rw [hcomp]
    exact List.map_snd_zip _ _ (le_of_eq hlen.symm)
  rw [hsnd]

theorem load_map (l : List Nat) (f : Nat → ModelRecord) (g : Nat → List ℚ) :
    (∀ i ∈ l, get_one_model_weights (f i) = .ok (g i)) →
    load_scipy_models_from_avro (l.map f) = .ok (l.map g) := by
  induction l with
  | nil => intro _; rfl
  | cons j js ih =>
    intro h
    simp only [List.map_cons]
    rw [load_scipy_models_from_avro, h j (by simp),
      ih (fun i hi => h i (by simp [hi]))]
    rfl

/-- C2: for every valid input the exporter writes exactly `numModels` records,
each record's `means` has length `1 +` the number of weights supplied for that
entity, and every built record is written exactly once — the file content is
exactly the per-entity records in order, none duplicated across the first
write, the periodic flushes and the final flush, and none dropped. -/
theorem gdmix_C2_orchestrator (ids : List String) (lwi : List (List Nat))
    (lwv : List (List ℚ)) (biases : List ℚ) (lines : List String)
    (path : String) (interval : Nat) (mc : String)
    (hv : ValidInput ids lwi lwv biases lines) (hint : 1 ≤ interval) :
    ∃ st, export_scipy_lr_model_to_avro ids lwi lwv biases lines path interval
        mc = .ok st ∧
      st.file.length = biases.length ∧
      st.buffer = [] ∧
      st.file = (List.range biases.length).map
        (specRecord mc (read_feature_list lines) ids lwi lwv biases) ∧
      (∀ i, i < biases.length → ∃ r, st.file[i]? = some r ∧
        r.means.length = 1 + (lwi.getD i []).length) := by
  obtain ⟨m, hm⟩ : ∃ m, biases.length = m + 1 := ⟨biases.length - 1, by
    have := hv.1; omega⟩
  have hspec := exportRef_spec interval
    (specRecord mc (read_feature_list lines) ids lwi lwv biases) m
  refine ⟨_, export_scipy_ok ids lwi lwv biases lines path interval mc hv hint,
    ?_, ?_, ?_, ?_⟩
  · rw [hm, hspec.1]; simp
  · rw [hm]; exact hspec.2
  · rw [hm]; exact hspec.1
  · intro i hi
    refine ⟨specRecord mc (read_feature_list lines) ids lwi lwv biases i,
      ?_, ?_⟩
    · rw [hm] at hi ⊢
      rw [hspec.1, List.getElem?_map, List.getElem?_range hi]
      rfl
    · have hlen := hv.2.2.2.2.1 i hi
      simp [specRecord, List.length_zip] at hlen ⊢
      omega

/-- Witness for C2 at a five-entity input. -/
theorem gdmix_C2_witness :
    ∃ st, export_scipy_lr_model_to_avro ["a", "b", "c", "d", "e"]
        [[0], [1], [0, 1], [], [1]] [[1], [2], [3, 4], [], [5]]
        [10, 20, 30, 40, 50] ["f1", "f2,t1"] "p" 1000 "mc" = .ok st ∧
      st.file.length = ([10, 20, 30, 40, 50] : List ℚ).length ∧
      st.buffer = [] ∧
      st.file = (List.range ([10, 20, 30, 40, 50] : List ℚ).length).map
        (specRecord "mc" (read_feature_list ["f1", "f2,t1"])
          ["a", "b", "c", "d", "e"] [[0], [1], [0, 1], [], [1]]
          [[1], [2], [3, 4], [], [5]] [10, 20, 30, 40, 50]) ∧
      (∀ i, i < ([10, 20, 30, 40, 50] : List ℚ).length → ∃ r,
        st.file[i]? = some r ∧
        r.means.length = 1 +
          (([[0], [1], [0, 1], [], [1]] : List (List Nat)).getD i []).length) :=
  gdmix_C2_orchestrator ["a", "b", "c", "d", "e"] [[0], [1], [0, 1], [], [1]]
    [[1], [2], [3, 4], [], [5]] [10, 20, 30, 40, 50] ["f1", "f2,t1"] "p" 1000
    "mc" (by decide) (by decide)

/-- C3: exporting then deserializing the output (as
`load_scipy_models_from_avro` does) yields, for each entity in order, records
whose model id, bias and weight set equal the inputs, and the readable file
content is the same for every choice of the flush interval. -/
theorem gdmix_C3_round_trip (ids : List String) (lwi : List (List Nat))
    (lwv : List (List ℚ)) (biases : List ℚ) (lines : List String)
    (path : String) (interval : Nat) (mc : String)
    (hv : ValidInput ids lwi lwv biases lines) (hint : 1 ≤ interval) :
    ∃ st, export_scipy_lr_model_to_avro ids lwi lwv biases lines path interval
        mc = .ok st ∧
      (∀ i, i < biases.length → st.file[i]? =
        some (specRecord mc (read_feature_list lines) ids lwi lwv biases i)) ∧
      load_scipy_models_from_avro st.file =
        .ok ((List.range biases.length).map
          fun i => lwv.getD i [] ++ [biases.getD i 0]) ∧
      (∀ interval2, 1 ≤ interval2 → ∃ st2,
        export_scipy_lr_model_to_avro ids lwi lwv biases lines path interval2
          mc = .ok st2 ∧ st2.file = st.file) := by
  obtain ⟨m, hm⟩ : ∃ m, biases.length = m + 1 := ⟨biases.length - 1, by
    have := hv.1; omega⟩
  have hspec := exportRef_spec interval
    (specRecord mc (read_feature_list lines) ids lwi lwv biases) m
  refine ⟨_, export_scipy_ok ids lwi lwv biases lines path interval mc hv hint,
    ?_, ?_, ?_⟩
  · intro i hi
    rw [hm] at hi ⊢
    rw [hspec.1, List.getElem?_map, List.getElem?_range hi]
    rfl
  · rw [hm, hspec.1]
    apply load_map
    intro i hi
    rw [List.mem_range] at hi
    exact get_one_specRecord mc (read_feature_list lines) ids lwi lwv biases i
      (hv.2.2.2.2.1 i (by omega))
  · intro interval2 hint2
    refine ⟨_, export_scipy_ok ids lwi lwv biases lines path interval2 mc hv
      hint2, ?_⟩
    rw [hm, (exportRef_spec interval2
      (specRecord mc (read_feature_list lines) ids lwi lwv biases) m).1,
      hspec.1]

/-- Witness for C3 at a two-entity input. -/
theorem gdmix_C3_witness :
    ∃ st, export_scipy_lr_model_to_avro ["a", "b"] [[0], [1]] [[1], [2]]
        [10, 20] ["f1", "f2,t1"] "p" 1 "mc" = .ok st ∧
      (∀ i, i < ([10, 20] : List ℚ).length → st.file[i]? =
        some (specRecord "mc" (read_feature_list ["f1", "f2,t1"]) ["a", "b"]
          [[0], [1]] [[1], [2]] [10, 20] i)) ∧
      load_scipy_models_from_avro st.file =
        .ok ((List.range ([10, 20] : List ℚ).length).map
          fun i => ([[1], [2]] : List (List ℚ)).getD i [] ++
            [([10, 20] : List ℚ).getD i 0]) ∧
      (∀ interval2, 1 ≤ interval2 → ∃ st2,
        export_scipy_lr_model_to_avro ["a", "b"] [[0], [1]] [[1], [2]]
          [10, 20] ["f1", "f2,t1"] "p" interval2 "mc" = .ok st2 ∧
        st2.file = st.file) :=
  gdmix_C3_round_trip ["a", "b"] [[0], [1]] [[1], [2]] [10, 20] ["f1", "f2,t1"]
    "p" 1 "mc" (by decide) (by decide)

/-- C4: the orchestrator performs the spec-stated number of flush (block
write) operations: with flush interval 2 and 5 entities exactly 3 flushes,
and with a single model exactly one flush (the first-write flush, with no
further writes). -/
theorem gdmix_C4_flush_counts :
    (∀ (ids : List String) (lwi : List (List Nat)) (lwv : List (List ℚ))
        (biases : List ℚ) (lines : List String) (path mc : String),
      ValidInput ids lwi lwv biases lines → biases.length = 5 →
      ∃ st, export_scipy_lr_model_to_avro ids lwi lwv biases lines path 2 mc =
          .ok st ∧ st.flushes = 3) ∧
    (∀ (ids : List String) (lwi : List (List Nat)) (lwv : List (List ℚ))
        (biases : List ℚ) (lines : List String) (path mc : String)
        (interval : Nat),
      ValidInput ids lwi lwv biases lines → biases.length = 1 → 1 ≤ interval →
      ∃ st, export_scipy_lr_model_to_avro ids lwi lwv biases lines path
          interval mc = .ok st ∧ st.flushes = 1) := by
  constructor
  · intro ids lwi lwv biases lines path mc hv h5
    refine ⟨_, export_scipy_ok ids lwi lwv biases lines path 2 mc hv
      (by omega), ?_⟩
    rw [h5]
    have h4 : List.range' 1 (5 - 1) = [1, 2, 3, 4] := rfl
    unfold exportRef
    rw [h4]
    simp [refLoop]
  · intro ids lwi lwv biases lines path mc interval hv h1 hint
    refine ⟨_, export_scipy_ok ids lwi lwv biases lines path interval mc hv
      hint, ?_⟩
    rw [h1]
    have h0 : List.range' 1 (1 - 1) = [] := rfl
    unfold exportRef
    rw [h0]
    simp [refLoop]

/-- Witness for C4: both flush-count scenarios at concrete inputs. -/
theorem gdmix_C4_witness :
    (∃ st, export_scipy_lr_model_to_avro ["a", "b", "c", "d", "e"]
        [[0], [1], [0, 1], [], [1]] [[1], [2], [3, 4], [], [5]]
        [10, 20, 30, 40, 50] ["f1", "f2,t1"] "p" 2 "mc" = .ok st ∧
      st.flushes = 3) ∧
    (∃ st, export_scipy_lr_model_to_avro ["a"] [[0]] [[1]] [10] ["f1"] "p"
        1000 "mc" = .ok st ∧ st.flushes = 1) :=
  ⟨gdmix_C4_flush_counts.1 ["a", "b", "c", "d", "e"] [[0], [1], [0, 1], [], [1]]
      [[1], [2], [3, 4], [], [5]] [10, 20, 30, 40, 50] ["f1", "f2,t1"] "p" "mc"
      (by decide) (by decide),
   gdmix_C4_flush_counts.2 ["a"] [[0]] [[1]] [10] ["f1"] "p" "mc" 1000
      (by decide) (by decide) (by decide)⟩

end GdmixIoUtils
